import Mathlib

/-!
Verification of the CRUCs repository (ScienceFarts.py and companions): a
shallow embedding of the record normalizer, tariff engine, emissions
calculator, aggregator and log-parser fragments that the frozen claims
are about, followed by one theorem per claim.

Conventions of the embedding:
  * Python floats are modelled as rationals; machine timestamps as natural
    numbers counting seconds from an epoch that falls on a Monday at
    midnight (so `t / 86400 % 7` matches the Monday = 0 weekday numbering
    of `datetime.weekday`).
  * Fallible Python code (IndexError, ValueError, TypeError,
    ZeroDivisionError, `sys.exit`) is modelled with `Option` or `Except`.
  * `int(...)` string parsing is modelled for an optional sign followed by
    decimal digits, the only shapes the program feeds it.
-/

/-- Python error outcomes that the modelled code can raise. -/
inductive PyError where
  | indexError
  | valueError
  | typeError
  | zeroDivisionError
deriving DecidableEq, Repr

/-- The three non-forecast input modes plus forecast, as dispatched by
`parse_args` and stored in `ScienceFarts.input_type`. -/
inductive InputType where
  | jobid
  | jobarray
  | logfile
  | forecast
deriving DecidableEq, Repr

/-- Decimal digit test, `c` between the characters 0 and 9. -/
def isDigit (c : Char) : Bool := decide ('0' ≤ c) && decide (c ≤ '9')

/-- Numeric value of a digit character. -/
def digitVal (c : Char) : ℕ := c.toNat - 48

/-- Value of a digit string, most significant digit first. -/
def digitsToNat (s : List Char) : ℕ := s.foldl (fun acc c => acc * 10 + digitVal c) 0

/-- Model of the Python builtin `int` applied to a string: an optional
sign followed by one or more decimal digits parses, anything else raises
ValueError (modelled as `none`). -/
def pyInt? (s : List Char) : Option ℤ :=
  match s with
  | [] => none
  | c :: rest =>
    if c = '-' then
      if rest ≠ [] ∧ rest.all isDigit then some (-(digitsToNat rest : ℤ)) else none
    else if c = '+' then
      if rest ≠ [] ∧ rest.all isDigit then some ((digitsToNat rest : ℤ)) else none
    else if (c :: rest).all isDigit then some ((digitsToNat (c :: rest) : ℤ)) else none

/-- Python slice `s[-2:]`: the last two characters (the whole string when
shorter than two characters). -/
def lastTwo (s : List Char) : List Char := s.drop (s.length - 2)

/-- Python slice `s[0:-2]`: everything but the last two characters. -/
def dropLastTwo (s : List Char) : List Char := s.take (s.length - 2)

/-- `convert_memory_to_gb` from ScienceFarts.py lines 49 to 68: a bare
integer is taken as MB and divided by 1000; otherwise the last two
characters select the unit kb, mb, gb or tb (lowercase match, exactly as
in the source); an unrecognized suffix prints a message and calls
`sys.exit` (here `none`); a recognized suffix whose prefix is not an
integer raises an uncaught ValueError (also `none`). -/
def convert_memory_to_gb (memory : List Char) : Option ℚ :=
  match pyInt? memory with
  | some n => some ((n : ℚ) / 1000)
  | none =>
    if lastTwo memory = ['k', 'b'] then
      (pyInt? (dropLastTwo memory)).map (fun n => (n : ℚ) / 1000000)
    else if lastTwo memory = ['m', 'b'] then
      (pyInt? (dropLastTwo memory)).map (fun n => (n : ℚ) / 1000)
    else if lastTwo memory = ['g', 'b'] then
      (pyInt? (dropLastTwo memory)).map (fun n => (n : ℚ))
    else if lastTwo memory = ['t', 'b'] then
      (pyInt? (dropLastTwo memory)).map (fun n => (n : ℚ) * 1000)
    else none

/-- Walltime parsing shared by `ForecastStats.get_cpu_time`,
`ForecastStats.get_start_end_time` and `JobStats.parse_walltime`: split on
the colon, convert fields 0, 1, 2 with `int`, and combine as
hours, minutes, seconds.  A missing field raises IndexError and a
non-numeric field raises ValueError (both `none`). -/
def parse_hms_seconds (walltime : List Char) : Option ℤ := do
  let parts := walltime.splitOn ':'
  let h ← (parts.get? 0).bind pyInt?
  let m ← (parts.get? 1).bind pyInt?
  let s ← (parts.get? 2).bind pyInt?
  pure (h * 3600 + m * 60 + s)

/-- `ForecastStats.get_cpu_time`, lines 116 to 130: walltime in seconds
multiplied by the core count. -/
def get_cpu_time (walltime : List Char) (cores : ℤ) : Option ℤ :=
  (parse_hms_seconds walltime).map (fun w => w * cores)

/-- `ScienceFarts.format_user_input`, lines 448 to 459: index positions
0 to 3 of the input list in source order, bumping the zero walltime to
"0:00:01", the zero memory string to "1" and the zero cores string to
"1".  An out-of-range index raises IndexError. -/
def format_user_input (l : List String) : Except PyError (List String) :=
  match l.get? 0 with
  | none => .error .indexError
  | some w0 =>
    let walltime := if w0 = "0:00:00" ∨ w0 = "00:00:00" then "0:00:01" else w0
    match l.get? 1 with
    | none => .error .indexError
    | some m0 =>
      let memory := if m0 = "0" then "1" else m0
      match l.get? 2 with
      | none => .error .indexError
      | some c0 =>
        let cores := if c0 = "0" then "1" else c0
        match l.get? 3 with
        | none => .error .indexError
        | some g0 => .ok [walltime, memory, cores, g0]

/-- First statement of `ScienceFarts.__init__`, lines 353 to 364: the
constructor formats the user input before anything else and regardless of
the input type; the later statements of the constructor only load
configuration, and log parsing happens in `run`. -/
def sciFarts_init (user_input : List String) (input_type : InputType) :
    Except PyError (List String × InputType) :=
  (format_user_input user_input).map (fun f => (f, input_type))

/-- Hour of day of a timestamp, as in `datetime.hour`. -/
def pyHour (t : ℕ) : ℕ := t / 3600 % 24

/-- Weekday of a timestamp with Monday numbered 0 and Sunday numbered 6,
as in `datetime.weekday`; the epoch of the embedding is a Monday
midnight. -/
def pyWeekday (t : ℕ) : ℕ := t / 86400 % 7

/-- The bucket category computed by `calculate_energy_price_row` line
548: the source expression `(current_time.weekday() > 5)*1`. -/
def weekday_code (t : ℕ) : ℕ := if 5 < pyWeekday t then 1 else 0

/-- Comparison definition that follows the words of the spec: the weekend
category is 1 exactly when the day is Saturday (weekday 5) or Sunday
(weekday 6), else 0. -/
def is_weekend_spec (t : ℕ) : ℕ := if 5 ≤ pyWeekday t then 1 else 0

/-- A tariff source: either the fixed scalar rate from the config, or a
rectangular table looked up by bucket category and hour (the pandas
`iloc[i, j]` access, modelled as a function of the two indices). -/
inductive Tariff where
  | scalar (rate : ℚ)
  | table (lookup : ℕ → ℕ → ℚ)

/-- Rate lookup: a table uses the bucket key, a scalar ignores it; this is
the branch on `isinstance(..., pd.DataFrame)` in both row calculators. -/
def Tariff.rate : Tariff → ℕ → ℕ → ℚ
  | .scalar r, _, _ => r
  | .table f, i, j => f i j

/-- The while loop of `calculate_energy_price_row`, lines 543 to 567:
starting from `current`, while `current ≤ endT` price the segment from
`current` to `min (current + 1 hour) endT` at the rate of bucket
`(weekday_code current, pyHour current)` and advance `current` by one
hour.  Times are in seconds, `time_diff` is the segment length as a
fraction of an hour. -/
def priceLoop (tariff : Tariff) (perHour : ℚ) (endT : ℕ) (current : ℕ) : ℚ :=
  if _h : current ≤ endT then
    let time_diff : ℚ := (((min (current + 3600) endT : ℕ) : ℚ) - (current : ℚ)) / 3600
    let price := tariff.rate (weekday_code current) (pyHour current)
    price * perHour * time_diff + priceLoop tariff perHour endT (current + 3600)
  else 0
termination_by endT + 1 - current
decreasing_by omega

/-- `ScienceFarts.calculate_energy_price_row` for a job row with the given
start and end timestamps and per-hour energy. -/
def calculate_energy_price_row (tariff : Tariff) (perHour : ℚ) (startT endT : ℕ) : ℚ :=
  priceLoop tariff perHour endT startT

/-- The while loop of `calculate_emissions_row`, lines 580 to 605:
identical to the price loop except that the bucket category is
`current_time.month - 1`.  Month extraction from a timestamp is calendar
arithmetic; it enters the embedding as the function argument `pyMonth`
(returning the month 1 to 12 of a timestamp). -/
def emissionsLoop (pyMonth : ℕ → ℕ) (tariff : Tariff) (perHour : ℚ)
    (endT : ℕ) (current : ℕ) : ℚ :=
  if _h : current ≤ endT then
    let time_diff : ℚ := (((min (current + 3600) endT : ℕ) : ℚ) - (current : ℚ)) / 3600
    let rate := tariff.rate (pyMonth current - 1) (pyHour current)
    rate * perHour * time_diff + emissionsLoop pyMonth tariff perHour endT (current + 3600)
  else 0
termination_by endT + 1 - current
decreasing_by omega

/-- `ScienceFarts.calculate_emissions_row` for a job row with the given
start and end timestamps and per-hour energy. -/
def calculate_emissions_row (pyMonth : ℕ → ℕ) (tariff : Tariff) (perHour : ℚ)
    (startT endT : ℕ) : ℚ :=
  emissionsLoop pyMonth tariff perHour endT startT

/-- Number of iterations of the hour-walking while loop shared by
`calculate_energy_price_row` and `calculate_emissions_row`: both loops
run while `current ≤ endT` and advance `current` by 3600 seconds. -/
def loop_iterations (endT : ℕ) (current : ℕ) : ℕ :=
  if _h : current ≤ endT then 1 + loop_iterations endT (current + 3600) else 0
termination_by endT + 1 - current
decreasing_by omega

/-- RAM sticks of a row, `calculate_resource_use` line 466:
`math.ceil(memory_gb / 16)`. -/
def ram_sticks (memory_gb : ℚ) : ℤ := Int.ceil (memory_gb / 16)

/-- `ScienceFarts.calculate_energy_row`, lines 516 to 529: energy in kWh
from CPU time, RAM sticks, GPUs and the three power constants of the
reference file. -/
def calculate_energy_row (cpu_time sticks gpus walltime_sec kWcore kWmem kWgpu : ℚ) : ℚ :=
  let energy_use_ram := cpu_time * sticks * kWmem
  let energy_use_cpu := cpu_time * kWcore
  let energy_use_gpu := gpus * walltime_sec * kWgpu
  (energy_use_cpu + energy_use_ram + energy_use_gpu) / 3600

/-- Model of the Python builtin `round(x, 2)` on exact rationals: round
half to even at two decimals. -/
def pyRound2 (x : ℚ) : ℚ :=
  let y := x * 100
  let f := Int.floor y
  let r := y - f
  let n := if r < 1/2 then f else if 1/2 < r then f + 1 else if f % 2 = 0 then f else f + 1
  (n : ℚ) / 100

/-- The weighted-efficiency computation of
`ScienceFarts.calculate_total_resource_use`, lines 479 to 481: each job
is a pair of its `cpu_time` in seconds and its `cpu_efficiency`;
`total_cpu_time` is the rounded sum of the CPU times divided by 3600, and
the result is the sum over jobs of `cpu_time / total_cpu_time *
cpu_efficiency`. -/
def calculate_total_efficiency (jobs : List (ℚ × ℚ)) : ℚ :=
  let total_cpu_time := pyRound2 ((jobs.map Prod.fst).sum / 3600)
  (jobs.map (fun j => j.1 / total_cpu_time * j.2)).sum

/-- Comparison definition that follows the words of the spec: the
CPU-time-weighted mean efficiency `Σ (t_i / Σ t_j) * e_i`. -/
def weighted_efficiency_spec (jobs : List (ℚ × ℚ)) : ℚ :=
  (jobs.map (fun j => j.1 / (jobs.map Prod.fst).sum * j.2)).sum

/-- A Python value that can sit in the `cpu_times` list of
`get_tracejob_figures`: the regular path appends `int` seconds, the
crashed-job path appends a `datetime.timedelta`. -/
inductive PyNum where
  | int (n : ℤ)
  | timedelta (secs : ℤ)
deriving DecidableEq, Repr

/-- One line of `tracejob` output, with the regex captures already
extracted: a line matching "Job Run at request of" carries its start
timestamp; a line matching "resources_used." carries the captured CPU
seconds, the memory already converted to GB, the end timestamp and the
walltime in seconds; every other line (including the trailing empty
line of the split) matches neither pattern. -/
inductive LogLine where
  | startLine (t : ℤ)
  | resourceLine (cput : ℤ) (memGb : ℚ) (endT : ℤ) (wallSec : ℤ)
  | plain
deriving DecidableEq, Repr

/-- The per-job mutable state of `get_tracejob_figures`: the five
accumulating lists plus the line-scoped `start_time` and `end_time`
variables as they stand after the most recently processed line (both are
reset to None at the top of each iteration of the line loop). -/
structure TraceState where
  start_times : List ℤ
  cpu_times : List PyNum
  memories : List ℚ
  end_times : List ℤ
  walltimes : List ℤ
  last_start : Option ℤ
  last_end : Option ℤ
deriving DecidableEq, Repr

/-- The state before any line is processed. -/
def emptyTraceState : TraceState :=
  { start_times := [], cpu_times := [], memories := [], end_times := [],
    walltimes := [], last_start := none, last_end := none }

/-- The line loop of `get_tracejob_figures`, lines 250 to 291: a start
line records a start time unless the input is a job array; a resource
line records CPU time, memory, end time and walltime, derives the start
time as end minus walltime in job-array mode, and in every other mode
breaks out of the loop after the first resource line. -/
def processLines (inputType : InputType) : List LogLine → TraceState → TraceState
  | [], st => st
  | line :: rest, st =>
    match line with
    | .startLine t =>
      if inputType ≠ InputType.jobarray then
        processLines inputType rest
          { st with start_times := st.start_times ++ [t],
                    last_start := some t, last_end := none }
      else
        processLines inputType rest { st with last_start := none, last_end := none }
    | .resourceLine cput memGb endT wallSec =>
      let st1 :=
        { st with cpu_times := st.cpu_times ++ [PyNum.int cput],
                  memories := st.memories ++ [memGb],
                  end_times := st.end_times ++ [endT],
                  walltimes := st.walltimes ++ [wallSec],
                  last_start := none, last_end := some endT }
      if inputType = InputType.jobarray then
        processLines inputType rest
          { st1 with start_times := st1.start_times ++ [endT - wallSec],
                     last_start := some (endT - wallSec) }
      else st1
    | .plain =>
      processLines inputType rest { st with last_start := none, last_end := none }

/-- The crashed-job branch of `get_tracejob_figures`, lines 293 to 300:
if the line-scoped `start_time` is set and `end_time` is not after the
loop, append "now" to the end times, the timedelta now minus start to
the CPU times, the literal 100000 to the memory list (whose unit is GB),
and the same timedelta to the walltimes.  Nothing is appended to any
cores list. -/
def synthesize_failed_job (st : TraceState) (now : ℤ) : TraceState :=
  match st.last_start, st.last_end with
  | some s, none =>
    { st with end_times := st.end_times ++ [now],
              cpu_times := st.cpu_times ++ [PyNum.timedelta (now - s)],
              memories := st.memories ++ [100000],
              walltimes := st.walltimes ++ [now - s] }
  | _, _ => st

/-- The core-count inference of `get_tracejob_figures` line 304:
`math.ceil(cpu_time / walltime.total_seconds())` over the zipped CPU-time
and walltime lists.  A zero walltime raises ZeroDivisionError; a
timedelta CPU time (from the crashed-job branch) divided by a float is a
timedelta again, so `math.ceil` raises TypeError.  Neither error is
caught by the surrounding `except UnboundLocalError`. -/
def coresOf : List PyNum → List ℤ → Except PyError (List ℤ)
  | [], _ => .ok []
  | _, [] => .ok []
  | c :: cs, w :: ws =>
    if w = 0 then .error .zeroDivisionError
    else
      match c with
      | .timedelta _ => .error .typeError
      | .int n => (coresOf cs ws).map (fun rest => Int.ceil ((n : ℚ) / (w : ℚ)) :: rest)

/-- Outcome of processing one job id inside `get_tracejob_figures`:
either the per-job lists plus the inferred cores, a skip via the raised
and caught UnboundLocalError when the cores list is empty, or a crash of
the whole batch on an uncaught exception. -/
inductive JobOutcome where
  | ok (st : TraceState) (cores : List ℤ)
  | skipped
  | crash (e : PyError)
deriving DecidableEq, Repr

/-- Processing of one job id in `get_tracejob_figures`: run the line
loop, apply the crashed-job branch, then infer the cores; an empty cores
list raises UnboundLocalError, which is caught and skips the job. -/
def get_tracejob_single (inputType : InputType) (lines : List LogLine) (now : ℤ) :
    JobOutcome :=
  let st := synthesize_failed_job (processLines inputType lines emptyTraceState) now
  match coresOf st.cpu_times st.walltimes with
  | .error e => .crash e
  | .ok cores => if cores.length = 0 then .skipped else .ok st cores

/-! Helper lemmas, shared by the claim theorems below. -/

theorem pyInt_of_digits (ds : List Char) (h1 : ds ≠ []) (h2 : ds.all isDigit = true) :
    pyInt? ds = some ((digitsToNat ds : ℤ)) := by
  match ds with
  | c :: rest =>
    have hc : isDigit c = true := by
      simp only [List.all_cons, Bool.and_eq_true] at h2
      exact h2.1
    have hminus : ¬ c = '-' := by
      intro hcEq
      rw [hcEq] at hc
      exact absurd hc (by decide)
    have hplus : ¬ c = '+' := by
      intro hcEq
      rw [hcEq] at hc
      exact absurd hc (by decide)
    simp [pyInt?, hminus, hplus, h2]

theorem pyInt_digits_suffix_none (ds : List Char) (u v : Char) (h1 : ds ≠ [])
    (h2 : ds.all isDigit = true) (hu : isDigit u = false) :
    pyInt? (ds ++ [u, v]) = none := by
  match ds with
  | [] => exact absurd rfl h1
  | c :: rest =>
    have hc : isDigit c = true := by
      simp only [List.all_cons, Bool.and_eq_true] at h2
      exact h2.1
    have hminus : ¬ c = '-' := by
      intro hcEq
      rw [hcEq] at hc
      exact absurd hc (by decide)
    have hplus : ¬ c = '+' := by
      intro hcEq
      rw [hcEq] at hc
      exact absurd hc (by decide)
    have hall : ((c :: rest) ++ [u, v]).all isDigit = false := by
      simp [List.all_append, hu]
    simp only [List.cons_append, pyInt?, if_neg hminus, if_neg hplus]
    rw [show c :: (rest ++ [u, v]) = (c :: rest) ++ [u, v] by simp]
    rw [hall]
    simp

theorem lastTwo_of_append (ds : List Char) (u v : Char) : lastTwo (ds ++ [u, v]) = [u, v] := by
  unfold lastTwo
  have hlen : (ds ++ [u, v]).length - 2 = ds.length := by
    simp [List.length_append]
  rw [hlen, List.drop_left]

theorem dropLastTwo_of_append (ds : List Char) (u v : Char) :
    dropLastTwo (ds ++ [u, v]) = ds := by
  unfold dropLastTwo
  have hlen : (ds ++ [u, v]).length - 2 = ds.length := by
    simp [List.length_append]
  rw [hlen, List.take_left]

theorem loop_iterations_closed : ∀ d endT current : ℕ, endT - current = d → current ≤ endT →
    loop_iterations endT current = d / 3600 + 1 := by
  intro d
  induction d using Nat.strong_induction_on with
  | _ d ih =>
    intro endT current hd hle
    unfold loop_iterations
    rw [dif_pos hle]
    by_cases h2 : current + 3600 ≤ endT
    · rw [ih (endT - (current + 3600)) (by omega) endT (current + 3600) rfl h2]
      omega
    · unfold loop_iterations
      rw [dif_neg h2]
      omega

/-! The claim theorems. -/

/-- Claim C1: the claim states that the weighted CPU efficiency of
`calculate_total_resource_use` equals the CPU-time-weighted mean of the
per-job efficiencies, lies in the interval from 0 to the maximum
efficiency, and equals the single efficiency for one job.  The code
instead divides each CPU time in seconds by `total_cpu_time` already
converted to rounded hours, so for one job with 3600 CPU-seconds and
efficiency 1 it returns 3600 where the claim demands 1. -/
theorem aggregator_total_efficiency_divergence :
    calculate_total_efficiency [(3600, 1)] = 3600 ∧
    weighted_efficiency_spec [(3600, 1)] = 1 ∧
    calculate_total_efficiency [(3600, 1)] ≠ weighted_efficiency_spec [(3600, 1)] ∧
    ¬ calculate_total_efficiency [(3600, 1)] ≤ 1 := by
  refine ⟨?_, ?_, ?_, ?_⟩
  · norm_num [calculate_total_efficiency, pyRound2]
  · norm_num [weighted_efficiency_spec]
  · norm_num [calculate_total_efficiency, weighted_efficiency_spec, pyRound2]
  · norm_num [calculate_total_efficiency, pyRound2]

/-- Claim C2: the claim states that the price-table bucket key marks
Saturday and Sunday as weekend.  The code computes
`(current_time.weekday() > 5)*1`, which is 1 only for Sunday (weekday 6):
on a Saturday timestamp (weekday 5, here 432000 seconds after a Monday
epoch) the code yields category 0 while the claim demands 1, and the
price loop accordingly prices a Saturday hour at the weekday rate 3 of
the table instead of its weekend rate 7. -/
theorem price_bucket_saturday_divergence :
    pyWeekday 432000 = 5 ∧
    weekday_code 432000 = 0 ∧
    is_weekend_spec 432000 = 1 ∧
    weekday_code 432000 ≠ is_weekend_spec 432000 ∧
    calculate_energy_price_row (Tariff.table (fun wd _ => if wd = 1 then 7 else 3)) 1 432000 435599
      = 3 * 1 * (3599 / 3600) := by
  refine ⟨by decide, by decide, by decide, by decide, ?_⟩
  unfold calculate_energy_price_row
  unfold priceLoop
  rw [dif_pos (by norm_num)]
  unfold priceLoop
  rw [dif_neg (by norm_num)]
  norm_num [Tariff.rate, weekday_code, pyWeekday, pyHour]

/-- Claim C3: for a job interval lying inside one hourly bucket (same
absolute hour slot for start and end) both the price loop and the
emissions loop run a single segment and return exactly the rate of that
bucket times the per-hour energy times the duration in hours. -/
theorem tariff_single_bucket_exact (tariff : Tariff) (pyMonth : ℕ → ℕ) (perHour : ℚ)
    (s e : ℕ) (hle : s ≤ e) (hbucket : s / 3600 = e / 3600) :
    calculate_energy_price_row tariff perHour s e
      = tariff.rate (weekday_code s) (pyHour s) * perHour * (((e : ℚ) - (s : ℚ)) / 3600) ∧
    calculate_emissions_row pyMonth tariff perHour s e
      = tariff.rate (pyMonth s - 1) (pyHour s) * perHour * (((e : ℚ) - (s : ℚ)) / 3600) := by
  have hlt : e < s + 3600 := by omega
  constructor
  · unfold calculate_energy_price_row
    unfold priceLoop
    rw [dif_pos hle]
    unfold priceLoop
    rw [dif_neg (by omega)]
    rw [min_eq_right (le_of_lt hlt)]
    ring
  · unfold calculate_emissions_row
    unfold emissionsLoop
    rw [dif_pos hle]
    unfold emissionsLoop
    rw [dif_neg (by omega)]
    rw [min_eq_right (le_of_lt hlt)]
    ring

/-- Witness for claim C3: a concrete interval of 3599 seconds inside the
hour slot beginning at 7200, a scalar tariff of 2 and per-hour energy 5. -/
theorem tariff_single_bucket_exact_witness :
    calculate_energy_price_row (Tariff.scalar 2) 5 7200 10799
      = 2 * 5 * (((10799 : ℚ) - (7200 : ℚ)) / 3600) ∧
    calculate_emissions_row (fun _ => 1) (Tariff.scalar 2) 5 7200 10799
      = 2 * 5 * (((10799 : ℚ) - (7200 : ℚ)) / 3600) := by
  have h := tariff_single_bucket_exact (Tariff.scalar 2) (fun _ => 1) 5 7200 10799
    (by decide) (by decide)
  simpa [Tariff.rate] using h

/-- Claim C4: the claim states that zero forecast inputs become 1 second,
1 GB and 1 core.  The walltime and cores parts hold on the string path of
`format_user_input`, but the zero memory is rewritten to the bare string
"1", which `convert_memory_to_gb` reads as 1 MB: the resulting record
holds 1/1000 GB, not the 1 GB the claim demands. -/
theorem forecast_zero_memory_divergence :
    format_user_input ["0:00:00", "0", "0", "7"] = .ok ["0:00:01", "1", "1", "7"] ∧
    parse_hms_seconds ['0', ':', '0', '0', ':', '0', '1'] = some 1 ∧
    convert_memory_to_gb ['1'] = some (1 / 1000) ∧
    (1 / 1000 : ℚ) ≠ 1 := by
  refine ⟨rfl, rfl, rfl, by norm_num⟩

/-- Claim C5, counterexample: the claim states the unit suffix match is
case-insensitive, but the code compares the last two characters against
the lowercase strings only, so the input 16GB exits fatally instead of
converting to 16. -/
theorem memory_suffix_case_cx :
    convert_memory_to_gb ['1', '6', 'G', 'B'] = none ∧
    convert_memory_to_gb ['1', '6', 'G', 'B'] ≠ some 16 := by
  refine ⟨rfl, ?_⟩
  intro h
  rw [show convert_memory_to_gb ['1', '6', 'G', 'B'] = none from rfl] at h
  exact Option.noConfusion h

/-- Claim C5 as amended: a bare integer is divided by 1000 (assumed MB);
a value with lowercase suffix kb, mb, gb or tb is multiplied by the
factors 1/1000000, 1/1000, 1 and 1000 respectively, the match being
case-sensitive; and for any other suffix (uppercase variants included)
the conversion is fatal, never a silent zero. -/
theorem convert_memory_to_gb_amended (ds s : List Char) (h1 : ds ≠ [])
    (h2 : ds.all isDigit = true) (hs1 : pyInt? s = none)
    (hs2 : lastTwo s ≠ ['k', 'b']) (hs3 : lastTwo s ≠ ['m', 'b'])
    (hs4 : lastTwo s ≠ ['g', 'b']) (hs5 : lastTwo s ≠ ['t', 'b']) :
    convert_memory_to_gb ds = some ((digitsToNat ds : ℚ) / 1000) ∧
    convert_memory_to_gb (ds ++ ['k', 'b']) = some ((digitsToNat ds : ℚ) / 1000000) ∧
    convert_memory_to_gb (ds ++ ['m', 'b']) = some ((digitsToNat ds : ℚ) / 1000) ∧
    convert_memory_to_gb (ds ++ ['g', 'b']) = some ((digitsToNat ds : ℚ)) ∧
    convert_memory_to_gb (ds ++ ['t', 'b']) = some ((digitsToNat ds : ℚ) * 1000) ∧
    convert_memory_to_gb s = none := by
  have hint := pyInt_of_digits ds h1 h2
  refine ⟨?_, ?_, ?_, ?_, ?_, ?_⟩
  · simp [convert_memory_to_gb, hint]
  · rw [convert_memory_to_gb, pyInt_digits_suffix_none ds 'k' 'b' h1 h2 (by decide)]
    rw [lastTwo_of_append, dropLastTwo_of_append]
    simp [hint]
  · rw [convert_memory_to_gb, pyInt_digits_suffix_none ds 'm' 'b' h1 h2 (by decide)]
    rw [lastTwo_of_append, dropLastTwo_of_append]
    simp [hint]
  · rw [convert_memory_to_gb, pyInt_digits_suffix_none ds 'g' 'b' h1 h2 (by decide)]
    rw [lastTwo_of_append, dropLastTwo_of_append]
    simp [hint]
  · rw [convert_memory_to_gb, pyInt_digits_suffix_none ds 't' 'b' h1 h2 (by decide)]
    rw [lastTwo_of_append, dropLastTwo_of_append]
    simp [hint]
  · rw [convert_memory_to_gb, hs1]
    simp [hs2, hs3, hs4, hs5]

/-- Witness for the amended claim C5: the digits 16 with each suffix, and
the rejected uppercase input 16GB. -/
theorem convert_memory_to_gb_amended_witness :
    convert_memory_to_gb ['1', '6', 'g', 'b'] = some ((digitsToNat ['1', '6'] : ℚ)) ∧
    convert_memory_to_gb ['1', '6', 'G', 'B'] = none := by
  have h := convert_memory_to_gb_amended ['1', '6'] ['1', '6', 'G', 'B']
    (by decide) (by decide) (by rfl) (by decide) (by decide) (by decide) (by decide)
  exact ⟨h.2.2.2.1, h.2.2.2.2.2⟩

/-- Claim C6: for every interval with start at most end, the hour-walking
loop shared by the two tariff row calculators terminates (the counting
function below is total over the same guard and increment), runs exactly
the duration divided by 3600 plus one iterations, and hence at most the
ceiling of the duration in hours plus one. -/
theorem tariff_loop_iteration_bound (s e : ℕ) (h : s ≤ e) :
    loop_iterations e s = (e - s) / 3600 + 1 ∧
    (loop_iterations e s : ℤ) ≤ Int.ceil (((e - s : ℕ) : ℚ) / 3600) + 1 := by
  have h1 := loop_iterations_closed (e - s) e s rfl h
  refine ⟨h1, ?_⟩
  rw [h1]
  have hc : (((e - s) / 3600 : ℕ) : ℚ) ≤ (((e - s : ℕ)) : ℚ) / 3600 := Nat.cast_div_le
  have hce := Int.le_ceil ((((e - s : ℕ)) : ℚ) / 3600)
  have hq : (((e - s) / 3600 : ℕ) : ℚ)
      ≤ ((Int.ceil ((((e - s : ℕ)) : ℚ) / 3600) : ℤ) : ℚ) := le_trans hc hce
  have hz : (((e - s) / 3600 : ℕ) : ℤ) ≤ Int.ceil ((((e - s : ℕ)) : ℚ) / 3600) := by
    rw [← @Int.cast_le ℚ, Int.cast_natCast]
    exact hq
  push_cast
  omega

/-- Witness for claim C6: a two-hour interval runs three iterations,
matching the bound of the ceiling of two plus one. -/
theorem tariff_loop_iteration_bound_witness :
    loop_iterations 7200 0 = 3 ∧
    (loop_iterations 7200 0 : ℤ) ≤ Int.ceil (((7200 - 0 : ℕ) : ℚ) / 3600) + 1 := by
  have h := tariff_loop_iteration_bound 0 7200 (by decide)
  exact ⟨by simpa using h.1, h.2⟩

/-- Claim C7: the claim states that a job with a start marker and no
resource marker gets a synthesized record with end time now, 1 core and
100 MB memory, and that the batch continues.  In the code the branch
fires only when the start marker is the very last log line (the
line-scoped variables are reset each iteration); when it does fire it
appends the raw number 100000 to the memory list whose unit is GB (100 MB
would be 1/10), appends a timedelta to the CPU-time list, appends no
cores entry, and the later cores inference applies `math.ceil` to a
timedelta divided by a float, an uncaught TypeError that crashes the
whole batch. -/
theorem crashed_job_synthesis_divergence :
    get_tracejob_single InputType.jobid [LogLine.startLine 0] 50
      = JobOutcome.crash PyError.typeError ∧
    (synthesize_failed_job (processLines InputType.jobid [LogLine.startLine 0]
        emptyTraceState) 50).memories = [100000] ∧
    ((100000 : ℚ) ≠ 1 / 10) ∧
    get_tracejob_single InputType.jobid [LogLine.startLine 0, LogLine.plain] 50
      = JobOutcome.skipped := by
  refine ⟨rfl, rfl, by norm_num, rfl⟩

/-- Claim C8, counterexample: the claim states the zero-walltime case is
guarded and yields 1 core; the code has no guard, and the inference over
a record with CPU time 7200 and walltime 0 raises ZeroDivisionError
instead of producing the 1-core list. -/
theorem cores_zero_walltime_cx :
    coresOf [PyNum.int 7200] [0] = Except.error PyError.zeroDivisionError ∧
    coresOf [PyNum.int 7200] [0] ≠ Except.ok [1] := by
  refine ⟨rfl, ?_⟩
  intro h
  rw [show coresOf [PyNum.int 7200] [0] = Except.error PyError.zeroDivisionError from rfl] at h
  exact Except.noConfusion h

/-- Claim C8 as amended: for records whose CPU times are plain integers
and whose walltimes are all nonzero, the inferred core counts are exactly
the ceilings of CPU time over walltime; when a walltime is zero there is
no guard and the computation raises an unhandled ZeroDivisionError
rather than yielding 1 core. -/
theorem cores_inference_amended (cs ws : List ℤ) (hw : ∀ w ∈ ws, w ≠ 0) :
    coresOf (cs.map PyNum.int) ws
      = Except.ok (List.zipWith (fun n w => Int.ceil ((n : ℚ) / (w : ℚ))) cs ws) ∧
    ∀ n : ℤ, coresOf [PyNum.int n] [0] = Except.error PyError.zeroDivisionError := by
  constructor
  · induction cs generalizing ws with
    | nil => simp [coresOf]
    | cons c cs ih =>
      cases ws with
      | nil => simp [coresOf]
      | cons w ws =>
        have hw0 : ¬ w = 0 := hw w (by simp)
        have hrest := ih ws (fun x hx => hw x (by simp [hx]))
        simp [coresOf, hw0, hrest, Except.map]
  · intro n
    rfl

/-- Witness for the amended claim C8: one record with CPU time 7200 and
walltime 3600 yields the 2-core list, and the zero-walltime record
raises ZeroDivisionError. -/
theorem cores_inference_amended_witness :
    coresOf [PyNum.int 7200] [3600]
      = Except.ok (List.zipWith (fun n w => Int.ceil ((n : ℚ) / (w : ℚ))) [7200] [3600]) ∧
    coresOf [PyNum.int 9] [0] = Except.error PyError.zeroDivisionError := by
  have h := cores_inference_amended [7200] [3600] (by decide)
  exact ⟨by simpa using h.1, h.2 9⟩

/-- Claim C9: the end-to-end forecast scenario: memory 16gb converts to
16 GB and one RAM stick, walltime 01:00:00 with 4 cores gives 14400 CPU
seconds, and the energy row with the reference power constants 0.01,
0.005 and 0.3 kW equals the stated formula and evaluates to 0.06 kWh. -/
theorem forecast_energy_scenario :
    convert_memory_to_gb ['1', '6', 'g', 'b'] = some 16 ∧
    ram_sticks 16 = 1 ∧
    get_cpu_time ['0', '1', ':', '0', '0', ':', '0', '0'] 4 = some 14400 ∧
    calculate_energy_row 14400 1 0 3600 (1 / 100) (1 / 200) (3 / 10)
      = (14400 * (1 / 100) + 14400 * 1 * (1 / 200) + 0) / 3600 ∧
    calculate_energy_row 14400 1 0 3600 (1 / 100) (1 / 200) (3 / 10) = 3 / 50 := by
  refine ⟨rfl, by norm_num [ram_sticks], rfl, by norm_num [calculate_energy_row],
    by norm_num [calculate_energy_row]⟩

/-- Claim C10: the constructor formats the user input for every input
type, and for an input list with fewer than four elements (any job-id or
logfile invocation with fewer than four arguments) the formatting raises
IndexError before any log parsing or calculation. -/
theorem init_short_input_index_error (l : List String) (it : InputType)
    (h : l.length < 4) :
    sciFarts_init l it = Except.error PyError.indexError := by
  rcases l with _ | ⟨a, _ | ⟨b, _ | ⟨c, _ | ⟨d, rest⟩⟩⟩⟩
  · rfl
  · rfl
  · rfl
  · rfl
  · simp only [List.length_cons] at h
    omega

/-- Witness for claim C10: a single job id. -/
theorem init_short_input_index_error_witness :
    sciFarts_init ["12345"] InputType.jobid = Except.error PyError.indexError :=
  init_short_input_index_error ["12345"] InputType.jobid (by decide)
